import Mathlib

/-!
Verification of the Library-API catalog and booking manager.

Shallow embedding of `src/app/database.py` (class `DatabaseManager`) and
`src/app/app_model.py` (`BookModel`).  The PostgreSQL tables are lists of
rows; SERIAL columns are modelled by explicit `next_*_id` counters; each
method of `DatabaseManager` becomes a pure state transformer returning the
new database state together with the value the Python caller observes
(return value, or the printed branch where a claim is about reporting).
Timestamps (`datetime`) are pairs of a second count and a microsecond
count; `replace(microsecond=0)` is `Instant.truncate`.
-/

/-- A `datetime` instant: whole seconds plus microseconds, compared
lexicographically (as Python compares `datetime` values). -/
structure Instant where
  sec : Int
  usec : Nat
deriving DecidableEq

/-- Strict `<` on instants, as a boolean (SQL `start_date < %s` etc.). -/
def Instant.ltb (a b : Instant) : Bool :=
  decide (a.sec < b.sec) || (decide (a.sec = b.sec) && decide (a.usec < b.usec))

/-- Truncation to whole-second resolution: `dt.replace(microsecond=0)`. -/
def Instant.truncate (a : Instant) : Instant :=
  ⟨a.sec, 0⟩

/-- A row of the `authors` table. -/
structure AuthorRow where
  id : Int
  first_name : String
  last_name : String
  avatar : Option (List Nat)
deriving DecidableEq

/-- A row of the `genres` table. -/
structure GenreRow where
  id : Int
  name : String
deriving DecidableEq

/-- A row of the `books` table. -/
structure BookRow where
  id : Int
  title : String
  price : Int
  pages : Int
  author_id : Int
deriving DecidableEq

/-- A row of the `book_genres` join table. -/
structure BookGenreRow where
  book_id : Int
  genre_id : Int
deriving DecidableEq

/-- A row of the `bookings` table (no primary key in the source schema). -/
structure BookingRow where
  user_id : Int
  book_id : Int
  start_date : Instant
  end_date : Instant
deriving DecidableEq

/-- Dataclass `BookModel` from `app_model.py`. -/
structure BookModel where
  first_name : String
  last_name : String
  avatar : Option (List Nat)
  genres : List String
  title : String
  price : Int
  pages : Int
deriving DecidableEq

/-- The whole database: the five tables plus the SERIAL counters. -/
structure DBState where
  authors : List AuthorRow
  genres : List GenreRow
  books : List BookRow
  book_genres : List BookGenreRow
  bookings : List BookingRow
  next_author_id : Int
  next_genre_id : Int
  next_book_id : Int
deriving DecidableEq

/-- A freshly created database (after `create_tables`). -/
def emptyState : DBState :=
  ⟨[], [], [], [], [], 1, 1, 1⟩

/-- Method `_checking_booking_date` (lines 250-259): `DELETE FROM bookings WHERE
end_date < now` — the lazy expiry sweep. -/
def checking_booking_date (now : Instant) (s : DBState) : DBState :=
  { s with bookings := s.bookings.filter (fun bk => !(Instant.ltb bk.end_date now)) }

/-- The SQL predicate of `_is_available_bookings`:
`book_id = %s AND (start_date < %s AND %s < end_date)`. -/
def conflictsWith (bid : Int) (st : Instant) (bk : BookingRow) : Bool :=
  bk.book_id == bid && Instant.ltb bk.start_date st && Instant.ltb st bk.end_date

/-- Method `_is_available_bookings` (lines 199-216): sweeps expired bookings, then
counts rows whose interval strictly contains the candidate start; returns
`true` (available) iff the count is zero. -/
def is_available_bookings (bid : Int) (st : Instant) (now : Instant) (s : DBState) :
    DBState × Bool :=
  let s' := checking_booking_date now s
  (s', (s'.bookings.filter (conflictsWith bid st)).length == 0)

/-- Method `add_booking` (lines 218-235): truncates both instants to whole
seconds, runs the availability check, and then runs the INSERT.  The schema
declares `bookings.book_id REFERENCES books(id)` (line 73), so when the book
id is absent from `books` the INSERT raises a foreign-key violation, the
`except` at lines 234-235 prints the error, and nothing is stored — the
sweep already committed by the availability check (autocommit) persists.
The boolean is `true` iff the success branch ran and the row was stored;
`false` covers both the conflict branch and the caught-exception branch,
neither of which stores anything. -/
def add_booking (u bid : Int) (st en now : Instant) (s : DBState) : DBState × Bool :=
  let st' := st.truncate
  let en' := en.truncate
  let r := is_available_bookings bid st' now s
  if r.2 then
    if r.1.books.any (fun b => b.id == bid) then
      ({ r.1 with bookings := r.1.bookings ++ [⟨u, bid, st', en'⟩] }, true)
    else
      (r.1, false)
  else
    (r.1, false)

/-- The constant success message printed by `cancel_booking`. -/
def cancel_booking_message : String :=
  "Бронирование успешно отменено"

/-- Method `cancel_booking` (lines 237-248): `DELETE FROM bookings WHERE book_id = %s
AND user_id = %s`; the function returns `None` and prints the same message
whatever the number of rows removed. -/
def cancel_booking (u bid : Int) (s : DBState) : DBState × String :=
  ({ s with bookings :=
      s.bookings.filter (fun bk => !(bk.book_id == bid && bk.user_id == u)) },
   cancel_booking_message)

/-- The number of bookings a `cancel_booking u bid` call removes. -/
def cancel_removed_count (u bid : Int) (s : DBState) : Nat :=
  (s.bookings.filter (fun bk => bk.book_id == bid && bk.user_id == u)).length

/-- Method `get_active_bookings` (lines 261-277): sweep, then
`SELECT book_id, start_date, end_date FROM bookings JOIN books JOIN authors
WHERE end_date >= now`. -/
def get_active_bookings (now : Instant) (s : DBState) :
    DBState × List (Int × Instant × Instant) :=
  let s' := checking_booking_date now s
  (s',
    (s'.bookings.flatMap (fun bk =>
      (s'.books.filter (fun b => b.id == bk.book_id)).flatMap (fun b =>
        (s'.authors.filter (fun a => a.id == b.author_id)).map
          (fun _ => (bk.book_id, bk.start_date, bk.end_date))))).filter
      (fun r => !(Instant.ltb r.2.2 now)))

/-- Lines 86-98 of `add_book`: look the author up by (first_name, last_name);
insert with the supplied avatar only when absent; return the id used. -/
def resolve_or_create_author (fn ln : String) (av : Option (List Nat)) (s : DBState) :
    DBState × Int :=
  match s.authors.find? (fun a => a.first_name == fn && a.last_name == ln) with
  | some a => (s, a.id)
  | none =>
      ({ s with
          authors := s.authors ++ [⟨s.next_author_id, fn, ln, av⟩],
          next_author_id := s.next_author_id + 1 },
        s.next_author_id)

/-- Lines 100-114 of `add_book`, one loop iteration: look the genre up by
name; insert when absent; return the id used. -/
def resolve_or_create_genre (name : String) (s : DBState) : DBState × Int :=
  match s.genres.find? (fun g => g.name == name) with
  | some g => (s, g.id)
  | none =>
      ({ s with
          genres := s.genres ++ [⟨s.next_genre_id, name⟩],
          next_genre_id := s.next_genre_id + 1 },
        s.next_genre_id)

/-- The genre loop of `add_book`: resolve every genre name in order,
collecting the ids. -/
def resolve_genres (names : List String) (s : DBState) : DBState × List Int :=
  match names with
  | [] => (s, [])
  | n :: ns =>
      let r := resolve_or_create_genre n s
      let rs := resolve_genres ns r.1
      (rs.1, r.2 :: rs.2)

/-- Lines 124-128 of `add_book`: insert one `book_genres` row per resolved
genre id.  A duplicate (book_id, genre_id) pair violates the primary key:
the statement raises, the surrounding `except` catches it, and — the
connection being in autocommit mode — the rows already inserted stay. -/
def insert_join_rows (bid : Int) (gids : List Int) (rows : List BookGenreRow) :
    List BookGenreRow :=
  match gids with
  | [] => rows
  | g :: gs =>
      if rows.any (fun r => r.book_id == bid && r.genre_id == g) then rows
      else insert_join_rows bid gs (rows ++ [⟨bid, g⟩])

/-- Method `add_book` (lines 82-130): resolve/create the author, resolve/create each
genre, insert the book row, insert the join rows.  A duplicate title makes
the book insert raise; autocommit means the author/genre rows created so far
persist while no book or join row is added. -/
def add_book (bk : BookModel) (s : DBState) : DBState :=
  let ra := resolve_or_create_author bk.first_name bk.last_name bk.avatar s
  let rg := resolve_genres bk.genres ra.1
  let s2 := rg.1
  if s2.books.any (fun b => b.title == bk.title) then s2
  else
    let bid := s2.next_book_id
    let s3 : DBState := { s2 with
        books := s2.books ++ [⟨bid, bk.title, bk.price, bk.pages, ra.2⟩],
        next_book_id := bid + 1 }
    { s3 with book_genres := insert_join_rows bid rg.2 s3.book_genres }

/-- The three print branches of `remove_book`: the `except` error branch,
the "Книги с таким id не существует" branch, and the "Книга удалена"
branch. -/
inductive RemoveMsg where
  | error
  | notFound
  | removed
deriving DecidableEq

/-- Method `remove_book` (lines 132-146): delete the join rows, delete the
book row, then branch on `cursor.rowcount` — the row count of the last
statement, the `books` delete.  The schema declares `bookings.book_id
REFERENCES books(id)` with no cascade, so when a booking references an
existing book `bid` the `DELETE FROM books` raises a foreign-key violation;
the two statements travel in one `execute` and hence one implicit
transaction, so the join-row delete is rolled back too: nothing is deleted
and the `except` at lines 145-146 prints the error.  Otherwise `notFound`
is the zero-rowcount branch. -/
def remove_book (bid : Int) (s : DBState) : DBState × RemoveMsg :=
  if s.books.any (fun b => b.id == bid) &&
      s.bookings.any (fun bk => bk.book_id == bid) then
    (s, .error)
  else
    let deleted := (s.books.filter (fun b => b.id == bid)).length
    let s' := { s with
        book_genres := s.book_genres.filter (fun jg => !(jg.book_id == bid)),
        books := s.books.filter (fun b => !(b.id == bid)) }
    if deleted == 0 then (s', .notFound) else (s', .removed)

/-- A Python value passed for `min_price` / `max_price`: `None`, a number
(`int` or `float`), or any other object (`isinstance` rejects it). -/
inductive PyOpt where
  | none
  | num (v : Int)
  | other (x : String)
deriving DecidableEq

/-- Guard `if min_price is not None and isinstance(min_price, (int, float)):
query += " AND books.price >= %s"` — the condition a row must then pass. -/
def min_price_cond (p : PyOpt) (price : Int) : Bool :=
  match p with
  | .num v => decide (v ≤ price)
  | _ => true

/-- Same for `max_price`: `books.price <= %s`. -/
def max_price_cond (p : PyOpt) (price : Int) : Bool :=
  match p with
  | .num v => decide (price ≤ v)
  | _ => true

/-- Guard `if author_first_name:` — Python truthiness: `None` and `""` both skip
the condition; otherwise the column must equal the supplied string. -/
def str_cond (o : Option String) (x : String) : Bool :=
  match o with
  | Option.none => true
  | some v => if v == "" then true else x == v

/-- One row of the four-way join in `get_books_filtered`
(`books JOIN book_genres JOIN genres JOIN authors`). -/
structure QueryRow where
  book : BookRow
  genre : GenreRow
  author : AuthorRow
deriving DecidableEq

/-- The `FROM ... JOIN ... ON ...` part of `get_books_filtered`. -/
def catalog_rows (s : DBState) : List QueryRow :=
  s.books.flatMap (fun b =>
    (s.book_genres.filter (fun jg => jg.book_id == b.id)).flatMap (fun jg =>
      (s.genres.filter (fun g => g.id == jg.genre_id)).flatMap (fun g =>
        (s.authors.filter (fun a => a.id == b.author_id)).map (fun a => ⟨b, g, a⟩))))

/-- The dynamically assembled `WHERE` clause (lines 160-181). -/
def row_passes (mi ma : PyOpt) (gn afn aln : Option String) (r : QueryRow) : Bool :=
  min_price_cond mi r.book.price && max_price_cond ma r.book.price &&
    str_cond afn r.author.first_name && str_cond aln r.author.last_name &&
    str_cond gn r.genre.name

/-- The projected fields stored in the result dictionary. -/
structure BookProj where
  title : String
  price : Int
  pages : Int
  first_name : String
  last_name : String
deriving DecidableEq

/-- The dictionary value built for one fetched row (lines 188-194). -/
def proj_row (r : QueryRow) : BookProj :=
  ⟨r.book.title, r.book.price, r.book.pages, r.author.first_name, r.author.last_name⟩

/-- Assignment `books_list[book[0]] = ...`: Python dict assignment — overwrite in
place when the key exists, append otherwise. -/
def dict_insert (d : List (Int × BookProj)) (k : Int) (v : BookProj) :
    List (Int × BookProj) :=
  if d.any (fun kv => kv.1 == k) then
    d.map (fun kv => if kv.1 == k then (k, v) else kv)
  else d ++ [(k, v)]

/-- Method `get_books_filtered` (lines 148-197): sweep expired bookings, run the
join with the assembled filters, fold the rows into a dict keyed by book id. -/
def get_books_filtered (mi ma : PyOpt) (gn afn aln : Option String)
    (now : Instant) (s : DBState) : DBState × List (Int × BookProj) :=
  let s' := checking_booking_date now s
  (s',
    ((catalog_rows s').filter (row_passes mi ma gn afn aln)).foldl
      (fun d r => dict_insert d r.book.id (proj_row r)) [])

/-- Method `add_book` as the caller observes it.  `fail` models the backing store
raising on the first statement of the unit of work; the `except` branch
prints the exception and falls off the end, so the Python function returns
`None` on every path — hence the `Unit` component. -/
def add_book_run (fail : Bool) (bk : BookModel) (s : DBState) : DBState × Unit :=
  if fail then (s, ()) else (add_book bk s, ())

/-- Method `cancel_booking` under a possibly failing store, with the caller-visible
return value (`None` on every path). -/
def cancel_booking_run (fail : Bool) (u bid : Int) (s : DBState) : DBState × Unit :=
  if fail then (s, ()) else ((cancel_booking u bid s).1, ())

/-- Method `get_books_filtered` under a possibly failing store: the `except` branch
prints and returns `None` implicitly, so a failed read yields `none` while a
successful one yields the dict (possibly empty). -/
def get_books_filtered_run (fail : Bool) (mi ma : PyOpt) (gn afn aln : Option String)
    (now : Instant) (s : DBState) : DBState × Option (List (Int × BookProj)) :=
  if fail then (s, Option.none)
  else
    let r := get_books_filtered mi ma gn afn aln now s
    (r.1, some r.2)

/-- One `add_booking` request, with the clock reading at the moment the call
runs (`datetime.now()` inside the expiry sweep). -/
structure BookingReq where
  user : Int
  book : Int
  start : Instant
  finish : Instant
  now : Instant

/-- Run a sequence of `add_booking` calls, keeping only the states. -/
def run_bookings (reqs : List BookingReq) (s : DBState) : DBState :=
  match reqs with
  | [] => s
  | r :: rs => run_bookings rs (add_booking r.user r.book r.start r.finish r.now s).1

/-- Relation the ledger actually maintains between a booking `b` and every
booking `a` stored before it: `b` does not start strictly inside the
interval of `a` when both concern the same book. -/
def noNest (a b : BookingRow) : Prop :=
  ¬(a.book_id = b.book_id ∧ Instant.ltb a.start_date b.start_date = true ∧
      Instant.ltb b.start_date a.end_date = true)

/-- Lift an optional numeric filter value into the Python argument space. -/
def toPy (o : Option Int) : PyOpt :=
  match o with
  | Option.none => PyOpt.none
  | some v => PyOpt.num v

/-- The specification's reading of `filterBooks`: a book id qualifies iff
some `books` row carries it, the row passes both supplied price bounds, its
author row passes both supplied name filters, and the book has at least one
genre-join row (whose genre passes the supplied genre filter). -/
def claim_matches (mi ma : Option Int) (gn afn aln : Option String)
    (s : DBState) (bid : Int) : Prop :=
  ∃ b ∈ s.books, b.id = bid ∧
    (∀ v, mi = some v → v ≤ b.price) ∧
    (∀ v, ma = some v → b.price ≤ v) ∧
    (∃ a ∈ s.authors, a.id = b.author_id ∧
      (∀ n, afn = some n → a.first_name = n) ∧
      (∀ n, aln = some n → a.last_name = n)) ∧
    (∃ jg ∈ s.book_genres, jg.book_id = b.id ∧
      ∃ g ∈ s.genres, g.id = jg.genre_id ∧
        (∀ n, gn = some n → g.name = n))

/-- A ledger holding one booking of book 1 over `[5,15)`. -/
def exConflictState : DBState :=
  { emptyState with bookings := [⟨7, 1, ⟨5, 0⟩, ⟨15, 0⟩⟩] }

/-- A small catalog: one author, genre "SF", book 1 (priced 12, one genre
row) and book 2 (priced 15, no genre rows). -/
def demoCatalog : DBState :=
  { emptyState with
      authors := [⟨1, "Jane", "Doe", Option.none⟩],
      genres := [⟨1, "SF"⟩],
      books := [⟨1, "A", 12, 100, 1⟩, ⟨2, "B", 15, 50, 1⟩],
      book_genres := [⟨1, 1⟩],
      next_author_id := 2, next_genre_id := 2, next_book_id := 3 }

/-- A sample catalog insertion request. -/
def demoBook : BookModel :=
  ⟨"Jane", "Doe", Option.none, ["SF"], "A", 10, 100⟩

lemma bne_zero_length_filter {α : Type} (l : List α) (p : α → Bool) :
    (((l.filter p).length == 0) = false) ↔ ∃ x ∈ l, p x = true := by
  simp [beq_eq_false_iff_ne, ne_eq, List.length_eq_zero, List.filter_eq_nil_iff]

lemma beq_zero_length_filter {α : Type} (l : List α) (p : α → Bool) :
    (((l.filter p).length == 0) = true) ↔ ∀ x ∈ l, p x = false := by
  simp [List.length_eq_zero, List.filter_eq_nil_iff]

lemma conflictsWith_eq_true (bid : Int) (st : Instant) (bk : BookingRow) :
    conflictsWith bid st bk = true ↔
      bk.book_id = bid ∧ Instant.ltb bk.start_date st = true ∧
        Instant.ltb st bk.end_date = true := by
  simp [conflictsWith, Bool.and_assoc]

/-- Claim C1 (confirmed): on a ledger with no expired booking (so the lazy
sweep inside `_is_available_bookings` removes nothing), the availability
check reports a conflict exactly when some existing booking of the same book
satisfies `existing.start < candidateStart < existing.end`; only the
candidate's start instant is ever tested.  The witness instantiates the two
examples of the claim: candidate `[0,12)` against existing `[5,15)` is
accepted, candidate `[10,20)` is rejected. -/
theorem availability_tests_only_candidate_start (bid : Int) (st now : Instant)
    (s : DBState)
    (hfresh : ∀ bk ∈ s.bookings, Instant.ltb bk.end_date now = false) :
    ((is_available_bookings bid st now s).2 = false ↔
      ∃ bk ∈ s.bookings, bk.book_id = bid ∧
        Instant.ltb bk.start_date st = true ∧ Instant.ltb st bk.end_date = true) := by
  have hb : (checking_booking_date now s).bookings = s.bookings := by
    simp only [checking_booking_date]
    exact List.filter_eq_self.mpr (fun a ha => by simp [hfresh a ha])
  simp only [is_available_bookings, hb]
  rw [bne_zero_length_filter]
  constructor
  · rintro ⟨bk, hmem, hc⟩
    exact ⟨bk, hmem, (conflictsWith_eq_true bid st bk).mp hc⟩
  · rintro ⟨bk, hmem, hc⟩
    exact ⟨bk, hmem, (conflictsWith_eq_true bid st bk).mpr hc⟩

/-- Witness for C1: on the ledger `[5,15)` for book 1, the conflict
characterisation holds; candidate start 0 (interval `[0,12)`) is accepted
even though the intervals overlap, candidate start 10 (interval `[10,20)`)
is rejected. -/
theorem availability_tests_only_candidate_start_witness :
    (∀ bk ∈ exConflictState.bookings, Instant.ltb bk.end_date ⟨0, 0⟩ = false) ∧
    ((is_available_bookings 1 ⟨10, 0⟩ ⟨0, 0⟩ exConflictState).2 = false ↔
      ∃ bk ∈ exConflictState.bookings, bk.book_id = 1 ∧
        Instant.ltb bk.start_date ⟨10, 0⟩ = true ∧
        Instant.ltb ⟨10, 0⟩ bk.end_date = true) ∧
    (is_available_bookings 1 ⟨0, 0⟩ ⟨0, 0⟩ exConflictState).2 = true ∧
    (is_available_bookings 1 ⟨10, 0⟩ ⟨0, 0⟩ exConflictState).2 = false :=
  ⟨by decide,
   availability_tests_only_candidate_start 1 ⟨10, 0⟩ ⟨0, 0⟩ exConflictState (by decide),
   by decide, by decide⟩

/-- Counterexample to claim C3: `add_booking` with start `10 ≥ end 5` for
book 1 of `demoCatalog` (the book exists, the ledger is empty) raises no
`InvalidInterval` error — it takes the success branch and stores the row. -/
theorem inverted_interval_stored_counterexample :
    (add_booking 1 1 ⟨10, 0⟩ ⟨5, 0⟩ ⟨0, 0⟩ demoCatalog).2 = true ∧
    (add_booking 1 1 ⟨10, 0⟩ ⟨5, 0⟩ ⟨0, 0⟩ demoCatalog).1.bookings =
      [⟨1, 1, ⟨10, 0⟩, ⟨5, 0⟩⟩] ∧
    Instant.ltb ⟨10, 0⟩ ⟨5, 0⟩ = false := by
  decide

/-- Claim C3 as amended: `add_booking` performs no `start < end` validation
at all — a call whose truncated start is not before its truncated end is
stored all the same, whenever the availability check passes and the book id
exists in `books` (so the INSERT clears the foreign key). -/
theorem add_booking_skips_interval_validation (u bid : Int) (st en now : Instant)
    (s : DBState)
    (hge : Instant.ltb st.truncate en.truncate = false)
    (hav : (is_available_bookings bid st.truncate now s).2 = true)
    (hbook : s.books.any (fun b => b.id == bid) = true) :
    (add_booking u bid st en now s).2 = true ∧
    (add_booking u bid st en now s).1.bookings =
      (checking_booking_date now s).bookings ++
        [⟨u, bid, st.truncate, en.truncate⟩] := by
  have hbook2 : (is_available_bookings bid st.truncate now s).1.books.any
      (fun b => b.id == bid) = true := hbook
  simp only [add_booking, hav, hbook2, if_true]
  exact ⟨trivial, rfl⟩

/-- Witness for the amended C3 at the counterexample input `[10,5)` on
`demoCatalog`. -/
theorem add_booking_skips_interval_validation_witness :
    (Instant.ltb (Instant.truncate ⟨10, 0⟩) (Instant.truncate ⟨5, 0⟩) = false) ∧
    ((is_available_bookings 1 (Instant.truncate ⟨10, 0⟩) ⟨0, 0⟩ demoCatalog).2 = true) ∧
    (demoCatalog.books.any (fun b => b.id == 1) = true) ∧
    ((add_booking 1 1 ⟨10, 0⟩ ⟨5, 0⟩ ⟨0, 0⟩ demoCatalog).2 = true ∧
      (add_booking 1 1 ⟨10, 0⟩ ⟨5, 0⟩ ⟨0, 0⟩ demoCatalog).1.bookings =
        (checking_booking_date ⟨0, 0⟩ demoCatalog).bookings ++
          [⟨1, 1, Instant.truncate ⟨10, 0⟩, Instant.truncate ⟨5, 0⟩⟩]) :=
  ⟨by decide, by decide, by decide,
   add_booking_skips_interval_validation 1 1 ⟨10, 0⟩ ⟨5, 0⟩ ⟨0, 0⟩ demoCatalog
     (by decide) (by decide) (by decide)⟩

/-- Counterexample to claim C5: with a failing store, `add_book` catches the
exception and returns `None`, exactly what a successful call returns — the
caller receives no typed error at all, even though the two runs leave the
database in different states. -/
theorem store_failure_indistinguishable_counterexample :
    (add_book_run true demoBook emptyState).2 = (add_book_run false demoBook emptyState).2 ∧
    (add_book_run true demoBook emptyState).1 ≠ (add_book_run false demoBook emptyState).1 := by
  decide

/-- Claim C5 as amended: store-level failures are caught and printed, never
propagated.  `add_book` and `cancel_booking` return `None` whether the store
failed or not; `get_books_filtered` returns `None` on failure (an untyped
sentinel, distinguishable from the empty dict only by being `None`) and the
dict on success. -/
theorem store_failures_swallowed (bk : BookModel) (u bid : Int) (mi ma : PyOpt)
    (gn afn aln : Option String) (now : Instant) (s : DBState) :
    (add_book_run true bk s).2 = (add_book_run false bk s).2 ∧
    (cancel_booking_run true u bid s).2 = (cancel_booking_run false u bid s).2 ∧
    (get_books_filtered_run true mi ma gn afn aln now s).2 = Option.none ∧
    (get_books_filtered_run false mi ma gn afn aln now s).2 =
      some (get_books_filtered mi ma gn afn aln now s).2 :=
  ⟨rfl, rfl, rfl, rfl⟩

/-- A ledger holding two bookings of book 1 by user 1. -/
def twoBookingsState : DBState :=
  { emptyState with
      bookings := [⟨1, 1, ⟨0, 0⟩, ⟨10, 0⟩⟩, ⟨1, 1, ⟨20, 0⟩, ⟨30, 0⟩⟩] }

/-- Counterexample to claim C6: `cancel_booking` does not report the number
of bookings removed — a call removing two rows produces exactly the same
caller-visible output (return `None`, one fixed printed message) as a call
removing zero rows. -/
theorem cancel_count_not_reported_counterexample :
    (cancel_booking 1 1 emptyState).2 = (cancel_booking 1 1 twoBookingsState).2 ∧
    cancel_removed_count 1 1 emptyState = 0 ∧
    cancel_removed_count 1 1 twoBookingsState = 2 := by
  decide

/-- Claim C6 as amended: `cancel_booking` deletes exactly the bookings
matching the (subject, book) pair, regardless of interval; it reports no
count (the printed message is the same fixed success string on every call);
zero removed is not an error — a second identical call removes nothing,
leaves the state unchanged and produces the same success message. -/
theorem cancel_removes_pair_and_is_idempotent (u bid : Int) (s : DBState) :
    (∀ bk, bk ∈ (cancel_booking u bid s).1.bookings ↔
        bk ∈ s.bookings ∧ ¬(bk.book_id = bid ∧ bk.user_id = u)) ∧
    (cancel_booking u bid s).2 = cancel_booking_message ∧
    cancel_removed_count u bid (cancel_booking u bid s).1 = 0 ∧
    cancel_booking u bid (cancel_booking u bid s).1 = cancel_booking u bid s := by
  refine ⟨?_, rfl, ?_, ?_⟩
  · intro bk
    simp only [cancel_booking, List.mem_filter, Bool.not_eq_true',
      Bool.and_eq_false_iff, beq_eq_false_iff_ne, ne_eq]
    tauto
  · simp only [cancel_booking, cancel_removed_count, List.filter_filter,
      List.length_eq_zero]
    apply List.filter_eq_nil_iff.mpr
    intro x _
    cases h : (x.book_id == bid && x.user_id == u) <;> simp [h]
  · simp only [cancel_booking, List.filter_filter, Bool.and_self]

/-- Claim C7 as amended: when no booking references the book id — the only
case in which the foreign key `bookings.book_id REFERENCES books(id)` lets
the `DELETE FROM books` through — `remove_book` deletes exactly the book's
genre-join rows and the book row itself, reports the not-found branch
(`rowcount == 0` on the `books` delete) distinctly from the removed branch,
and leaves the `bookings` ledger — as well as `authors` and `genres` —
untouched.  With a booking referencing an existing book the whole delete
aborts instead: see `remove_book_fk_blocked_counterexample`. -/
theorem remove_book_frame_and_report (bid : Int) (s : DBState)
    (hnb : s.bookings.any (fun bk => bk.book_id == bid) = false) :
    (remove_book bid s).1.bookings = s.bookings ∧
    (remove_book bid s).1.authors = s.authors ∧
    (remove_book bid s).1.genres = s.genres ∧
    (∀ jg, jg ∈ (remove_book bid s).1.book_genres ↔
        jg ∈ s.book_genres ∧ jg.book_id ≠ bid) ∧
    (∀ b, b ∈ (remove_book bid s).1.books ↔ b ∈ s.books ∧ b.id ≠ bid) ∧
    ((remove_book bid s).2 = RemoveMsg.notFound ↔ ∀ b ∈ s.books, b.id ≠ bid) := by
  have hcond : (s.books.any (fun b => b.id == bid) &&
      s.bookings.any (fun bk => bk.book_id == bid)) = false := by
    rw [hnb, Bool.and_false]
  have h1 : (remove_book bid s).1 = { s with
      book_genres := s.book_genres.filter (fun jg => !(jg.book_id == bid)),
      books := s.books.filter (fun b => !(b.id == bid)) } := by
    simp only [remove_book, hcond, Bool.false_eq_true, if_false,
      apply_ite Prod.fst, ite_self]
  have h2 : ((remove_book bid s).2 = RemoveMsg.notFound ↔ ∀ b ∈ s.books, b.id ≠ bid) := by
    simp only [remove_book, hcond, Bool.false_eq_true, if_false, apply_ite Prod.snd]
    by_cases h : (((s.books.filter (fun b => b.id == bid)).length == 0) = true)
    · rw [if_pos h, beq_zero_length_filter] at *
      simp only [true_iff]
      intro b hb
      exact beq_eq_false_iff_ne.mp (h b hb)
    · rw [if_neg h]
      constructor
      · intro hcon; exact RemoveMsg.noConfusion hcon
      · intro hall
        apply absurd _ h
        rw [beq_zero_length_filter]
        intro x hx
        exact beq_eq_false_iff_ne.mpr (hall x hx)
  refine ⟨by rw [h1], by rw [h1], by rw [h1], ?_, ?_, h2⟩
  · intro jg; rw [h1]; simp [List.mem_filter]
  · intro b; rw [h1]; simp [List.mem_filter]

/-- Claim C9 (confirmed): the author resolve-or-create step of `add_book`
(lines 86-98) is idempotent.  Running it twice with the same
(first_name, last_name) — as two `add_book` calls for the same author do —
returns the same author id both times, leaves the state after the first run
untouched (so at most one row is ever created), and preserves every
pre-existing author row verbatim, so a stored avatar is never updated even
when the second call supplies a different one. -/
theorem author_resolve_idempotent (fn ln : String) (av1 av2 : Option (List Nat))
    (s : DBState) :
    (resolve_or_create_author fn ln av2 (resolve_or_create_author fn ln av1 s).1).2 =
        (resolve_or_create_author fn ln av1 s).2 ∧
    (resolve_or_create_author fn ln av2 (resolve_or_create_author fn ln av1 s).1).1 =
        (resolve_or_create_author fn ln av1 s).1 ∧
    (resolve_or_create_author fn ln av1 s).1.authors.length ≤ s.authors.length + 1 ∧
    (∀ a ∈ s.authors, a ∈ (resolve_or_create_author fn ln av1 s).1.authors) := by
  cases hfind : s.authors.find? (fun a => a.first_name == fn && a.last_name == ln) with
  | some found =>
      refine ⟨?_, ?_, ?_, ?_⟩ <;>
        simp [resolve_or_create_author, hfind]
  | none =>
      have hfind2 : List.find? (fun a => a.first_name == fn && a.last_name == ln)
          (s.authors ++ [AuthorRow.mk s.next_author_id fn ln av1]) =
          some (AuthorRow.mk s.next_author_id fn ln av1) := by
        rw [List.find?_append, hfind]
        simp
      refine ⟨?_, ?_, ?_, ?_⟩
      · simp [resolve_or_create_author, hfind, hfind2]
      · simp [resolve_or_create_author, hfind, hfind2]
      · simp [resolve_or_create_author, hfind]
      · intro x hx
        simp [resolve_or_create_author, hfind, hx]

/-- Claim C10 (confirmed): supplying a non-`None` value that is neither
`int` nor `float` for `min_price` or `max_price` fails the `isinstance`
guard (line 163 / 167), so the corresponding SQL condition is silently
never appended: the whole call — returned dict and database state — is
identical to the call without that filter, and no error is reported. -/
theorem non_numeric_price_filter_ignored (x : String) (mi ma : PyOpt)
    (gn afn aln : Option String) (now : Instant) (s : DBState) :
    get_books_filtered (.other x) ma gn afn aln now s =
      get_books_filtered .none ma gn afn aln now s ∧
    get_books_filtered mi (.other x) gn afn aln now s =
      get_books_filtered mi .none gn afn aln now s := by
  have hmin : row_passes (.other x) ma gn afn aln = row_passes .none ma gn afn aln := by
    funext r
    simp [row_passes, min_price_cond]
  have hmax : row_passes mi (.other x) gn afn aln = row_passes mi .none gn afn aln := by
    funext r
    simp [row_passes, max_price_cond]
  constructor <;> simp only [get_books_filtered, hmin, hmax]

/-- Counterexample to claim C2: inserting `[10,20)` and then `[5,15)` for
book 1 of `demoCatalog` (the book exists, so both INSERTs clear the foreign
key) — both calls succeed, because only the second call's start instant is
tested against `[10,20)` and `10 < 5` fails — leaves two stored intervals
`a = [5,15)` and `b = [10,20)` with `a.start < b.start < a.end`. -/
theorem stored_overlap_counterexample :
    (add_booking 1 1 ⟨10, 0⟩ ⟨20, 0⟩ ⟨0, 0⟩ demoCatalog).2 = true ∧
    (add_booking 2 1 ⟨5, 0⟩ ⟨15, 0⟩ ⟨0, 0⟩
        (add_booking 1 1 ⟨10, 0⟩ ⟨20, 0⟩ ⟨0, 0⟩ demoCatalog).1).2 = true ∧
    (add_booking 2 1 ⟨5, 0⟩ ⟨15, 0⟩ ⟨0, 0⟩
        (add_booking 1 1 ⟨10, 0⟩ ⟨20, 0⟩ ⟨0, 0⟩ demoCatalog).1).1.bookings =
      [⟨1, 1, ⟨10, 0⟩, ⟨20, 0⟩⟩, ⟨2, 1, ⟨5, 0⟩, ⟨15, 0⟩⟩] ∧
    Instant.ltb ⟨5, 0⟩ ⟨10, 0⟩ = true ∧
    Instant.ltb ⟨10, 0⟩ ⟨15, 0⟩ = true := by
  decide

lemma add_booking_preserves_pairwise (u bid : Int) (st en now : Instant) (s : DBState)
    (h : s.bookings.Pairwise noNest) :
    ((add_booking u bid st en now s).1.bookings).Pairwise noNest := by
  have hswept : ((checking_booking_date now s).bookings).Pairwise noNest :=
    List.Pairwise.filter _ h
  by_cases hav : (is_available_bookings bid st.truncate now s).2 = true
  swap
  · simp only [add_booking, Bool.not_eq_true] at hav
    simp only [add_booking, hav, if_false]
    exact hswept
  cases hbook : (is_available_bookings bid st.truncate now s).1.books.any
      (fun b => b.id == bid) with
  | false =>
      simp only [add_booking, hav, if_true, hbook, Bool.false_eq_true, if_false]
      exact hswept
  | true =>
    simp only [add_booking, hav, hbook, if_true]
    rw [List.pairwise_append]
    refine ⟨hswept, List.pairwise_singleton _ _, ?_⟩
    intro a ha b hb
    have hb' : b = ⟨u, bid, st.truncate, en.truncate⟩ := by
      simpa using hb
    subst hb'
    have hnone : ∀ x ∈ (checking_booking_date now s).bookings,
        conflictsWith bid st.truncate x = false := by
      have := (beq_zero_length_filter _ (conflictsWith bid st.truncate)).mp hav
      exact this
    intro hcon
    obtain ⟨hbid, hlt1, hlt2⟩ := hcon
    have hc : conflictsWith bid st.truncate a = true :=
      (conflictsWith_eq_true bid st.truncate a).mpr
        ⟨by simpa using hbid, by simpa using hlt1, by simpa using hlt2⟩
    have hf := hnone a ha
    rw [hc] at hf
    simp at hf

/-- Claim C2 as amended: the ledger only guarantees the asymmetric half of
the no-overlap invariant.  After any sequence of `add_booking` calls
(succeeding or not) on a state already satisfying it, the stored bookings
are pairwise `noNest` in storage order: no booking's start instant lies
strictly inside the interval of a booking stored *before* it for the same
book.  The symmetric nesting — an earlier booking's start inside a later
booking's interval — can occur, as `stored_overlap_counterexample` shows,
so the claim's order-free reading is false. -/
theorem bookings_no_forward_nesting (reqs : List BookingReq) (s : DBState)
    (h : s.bookings.Pairwise noNest) :
    ((run_bookings reqs s).bookings).Pairwise noNest := by
  induction reqs generalizing s with
  | nil => exact h
  | cons r rs ih =>
      exact ih _ (add_booking_preserves_pairwise r.user r.book r.start r.finish r.now s h)

/-- Witness for the amended C2: the counterexample's own two-request run on
`demoCatalog` (empty ledger, book 1 present) satisfies the storage-order
invariant. -/
theorem bookings_no_forward_nesting_witness :
    (demoCatalog.bookings.Pairwise noNest) ∧
    ((run_bookings [⟨1, 1, ⟨10, 0⟩, ⟨20, 0⟩, ⟨0, 0⟩⟩,
        ⟨2, 1, ⟨5, 0⟩, ⟨15, 0⟩, ⟨0, 0⟩⟩] demoCatalog).bookings).Pairwise noNest :=
  ⟨List.Pairwise.nil, bookings_no_forward_nesting _ _ List.Pairwise.nil⟩

lemma sweep_append_expired (now : Instant) (s : DBState) (b : BookingRow)
    (h : Instant.ltb b.end_date now = true) :
    checking_booking_date now { s with bookings := s.bookings ++ [b] } =
      checking_booking_date now s := by
  cases s
  simp [checking_booking_date, List.filter_append, h]

/-- Claim C4 (confirmed): the expiry sweep keeps exactly the bookings whose
end instant is not strictly before `now`; both `get_active_bookings` and
`_is_available_bookings` run the sweep first (their post-state is the swept
state); and consequently an expired booking (`end < now`) contributes
nothing — appending it to the ledger changes neither the active-bookings
listing nor any availability answer. -/
theorem expiry_sweep_exact_and_first (now : Instant) (s : DBState) (b : BookingRow)
    (hexp : Instant.ltb b.end_date now = true) :
    (∀ x, x ∈ (checking_booking_date now s).bookings ↔
        x ∈ s.bookings ∧ Instant.ltb x.end_date now = false) ∧
    (get_active_bookings now s).1 = checking_booking_date now s ∧
    (∀ bid st, (is_available_bookings bid st now s).1 =
        checking_booking_date now s) ∧
    (get_active_bookings now { s with bookings := s.bookings ++ [b] }).2 =
      (get_active_bookings now s).2 ∧
    (∀ bid st,
      (is_available_bookings bid st now { s with bookings := s.bookings ++ [b] }).2 =
        (is_available_bookings bid st now s).2) := by
  refine ⟨?_, rfl, fun bid st => rfl, ?_, ?_⟩
  · intro x
    simp [checking_booking_date, List.mem_filter]
  · simp only [get_active_bookings, sweep_append_expired now s b hexp]
  · intro bid st
    simp only [is_available_bookings, sweep_append_expired now s b hexp]

/-- A demo ledger over `demoCatalog` with one live booking of book 1. -/
def liveBookingState : DBState :=
  { demoCatalog with bookings := [⟨3, 1, ⟨0, 0⟩, ⟨100, 0⟩⟩] }

/-- A booking of book 1 that is expired at instant 20. -/
def expiredBooking : BookingRow := ⟨7, 1, ⟨5, 0⟩, ⟨15, 0⟩⟩

/-- Witness for C4 at `now = 20`: the appended booking `[5,15)` is expired,
and the whole conclusion holds on the demo ledger. -/
theorem expiry_sweep_exact_and_first_witness :
    (Instant.ltb expiredBooking.end_date ⟨20, 0⟩ = true) ∧
    ((∀ x, x ∈ (checking_booking_date ⟨20, 0⟩ liveBookingState).bookings ↔
        x ∈ liveBookingState.bookings ∧ Instant.ltb x.end_date ⟨20, 0⟩ = false) ∧
     (get_active_bookings ⟨20, 0⟩ liveBookingState).1 =
        checking_booking_date ⟨20, 0⟩ liveBookingState ∧
     (∀ bid st, (is_available_bookings bid st ⟨20, 0⟩ liveBookingState).1 =
        checking_booking_date ⟨20, 0⟩ liveBookingState) ∧
     (get_active_bookings ⟨20, 0⟩
        { liveBookingState with
            bookings := liveBookingState.bookings ++ [expiredBooking] }).2 =
       (get_active_bookings ⟨20, 0⟩ liveBookingState).2 ∧
     (∀ bid st,
       (is_available_bookings bid st ⟨20, 0⟩
          { liveBookingState with
              bookings := liveBookingState.bookings ++ [expiredBooking] }).2 =
         (is_available_bookings bid st ⟨20, 0⟩ liveBookingState).2)) :=
  ⟨by decide,
   expiry_sweep_exact_and_first ⟨20, 0⟩ liveBookingState expiredBooking (by decide)⟩

lemma mem_keys_dict_insert (d : List (Int × BookProj)) (k k' : Int) (v : BookProj) :
    (k ∈ (dict_insert d k' v).map Prod.fst ↔ k ∈ d.map Prod.fst ∨ k = k') := by
  unfold dict_insert
  by_cases h : (d.any (fun kv => kv.1 == k')) = true
  · rw [if_pos h]
    have hkeys : (d.map (fun kv => if kv.1 == k' then (k', v) else kv)).map Prod.fst =
        d.map Prod.fst := by
      rw [List.map_map]
      apply List.map_congr_left
      intro kv _
      simp only [Function.comp_apply]
      by_cases hk : (kv.1 == k') = true
      · rw [if_pos hk]
        exact (beq_iff_eq.mp hk).symm
      · rw [if_neg hk]
    rw [hkeys]
    constructor
    · exact Or.inl
    · rintro (hk | rfl)
      · exact hk
      · obtain ⟨kv, hkv, hbeq⟩ := List.any_eq_true.mp h
        rw [List.mem_map]
        exact ⟨kv, hkv, beq_iff_eq.mp hbeq⟩
  · rw [if_neg h]
    simp [List.mem_append]

lemma mem_keys_fold (rows : List QueryRow) (d : List (Int × BookProj)) (k : Int) :
    (k ∈ (rows.foldl (fun d r => dict_insert d r.book.id (proj_row r)) d).map Prod.fst ↔
      k ∈ d.map Prod.fst ∨ ∃ r ∈ rows, r.book.id = k) := by
  induction rows generalizing d with
  | nil => simp
  | cons r rs ih =>
      simp only [List.foldl_cons]
      rw [ih, mem_keys_dict_insert]
      simp only [List.mem_cons]
      constructor
      · rintro ((hk | hk) | ⟨x, hx, hxk⟩)
        · exact Or.inl hk
        · exact Or.inr ⟨r, Or.inl rfl, hk.symm⟩
        · exact Or.inr ⟨x, Or.inr hx, hxk⟩
      · rintro (hk | ⟨x, (rfl | hx), hxk⟩)
        · exact Or.inl (Or.inl hk)
        · exact Or.inl (Or.inr hxk.symm)
        · exact Or.inr ⟨x, hx, hxk⟩

lemma mem_catalog_rows (s : DBState) (r : QueryRow) :
    (r ∈ catalog_rows s ↔
      ∃ b ∈ s.books, ∃ jg ∈ s.book_genres, ∃ g ∈ s.genres, ∃ a ∈ s.authors,
        jg.book_id = b.id ∧ g.id = jg.genre_id ∧ a.id = b.author_id ∧
          r = ⟨b, g, a⟩) := by
  simp only [catalog_rows, List.mem_flatMap, List.mem_filter, List.mem_map, beq_iff_eq]
  constructor
  · rintro ⟨b, hb, jg, ⟨hjg, hjgb⟩, g, ⟨hg, hgid⟩, a, ⟨ha, haid⟩, rfl⟩
    exact ⟨b, hb, jg, hjg, g, hg, a, ha, hjgb, hgid, haid, rfl⟩
  · rintro ⟨b, hb, jg, hjg, g, hg, a, ha, hjgb, hgid, haid, rfl⟩
    exact ⟨b, hb, jg, ⟨hjg, hjgb⟩, g, ⟨hg, hgid⟩, a, ⟨ha, haid⟩, rfl⟩

lemma min_price_cond_toPy (mi : Option Int) (p : Int) :
    (min_price_cond (toPy mi) p = true ↔ ∀ v, mi = some v → v ≤ p) := by
  cases mi <;> simp [toPy, min_price_cond]

lemma max_price_cond_toPy (ma : Option Int) (p : Int) :
    (max_price_cond (toPy ma) p = true ↔ ∀ v, ma = some v → p ≤ v) := by
  cases ma <;> simp [toPy, max_price_cond]

lemma str_cond_iff (o : Option String) (h : o ≠ some "") (x : String) :
    (str_cond o x = true ↔ ∀ n, o = some n → x = n) := by
  cases o with
  | none => simp [str_cond]
  | some v =>
      have hv : ¬(v = "") := fun hv => h (by rw [hv])
      simp [str_cond, hv]

/-- Claim C8 (confirmed): with numeric price bounds and non-empty string
filters (Python truthiness treats `""` like `None`, so an empty string
does not count as a supplied filter), a book id appears in the dict
returned by `get_books_filtered` iff the book satisfies the conjunction of
every supplied filter — and, because qualifying requires a `book_genres`
join row with an existing genre, a book with zero genre-join rows never
appears, even when no filter is supplied (the genre condition is then
vacuous, but the join row must still exist). -/
theorem filter_conjunction_semantics (mi ma : Option Int) (gn afn aln : Option String)
    (now : Instant) (s : DBState)
    (hgn : gn ≠ some "") (hafn : afn ≠ some "") (haln : aln ≠ some "") :
    ∀ bid, (bid ∈ ((get_books_filtered (toPy mi) (toPy ma) gn afn aln now s).2.map
        Prod.fst) ↔ claim_matches mi ma gn afn aln s bid) := by
  intro bid
  have hcat : catalog_rows (checking_booking_date now s) = catalog_rows s := rfl
  simp only [get_books_filtered]
  rw [mem_keys_fold]
  simp only [List.map_nil, List.not_mem_nil, false_or]
  unfold claim_matches
  constructor
  · rintro ⟨r, hr, rfl⟩
    rw [List.mem_filter] at hr
    obtain ⟨hrmem, hpass⟩ := hr
    rw [hcat, mem_catalog_rows] at hrmem
    obtain ⟨b, hb, jg, hjg, g, hg, a, ha, hjgb, hgid, haid, rfl⟩ := hrmem
    simp only [row_passes, Bool.and_eq_true] at hpass
    obtain ⟨⟨⟨⟨hmin, hmax⟩, hfn⟩, hln⟩, hgn2⟩ := hpass
    refine ⟨b, hb, rfl, (min_price_cond_toPy mi b.price).mp hmin,
      (max_price_cond_toPy ma b.price).mp hmax,
      ⟨a, ha, haid, (str_cond_iff afn hafn a.first_name).mp hfn,
        (str_cond_iff aln haln a.last_name).mp hln⟩,
      ⟨jg, hjg, hjgb, g, hg, hgid, (str_cond_iff gn hgn g.name).mp hgn2⟩⟩
  · rintro ⟨b, hb, rfl, hmi, hma, ⟨a, ha, haid, hfn, hln⟩, ⟨jg, hjg, hjgb, g, hg, hgid, hgname⟩⟩
    refine ⟨⟨b, g, a⟩, ?_, rfl⟩
    rw [List.mem_filter, hcat, mem_catalog_rows]
    refine ⟨⟨b, hb, jg, hjg, g, hg, a, ha, hjgb, hgid, haid, rfl⟩, ?_⟩
    simp only [row_passes, Bool.and_eq_true]
    exact ⟨⟨⟨⟨(min_price_cond_toPy mi b.price).mpr hmi,
      (max_price_cond_toPy ma b.price).mpr hma⟩,
      (str_cond_iff afn hafn a.first_name).mpr hfn⟩,
      (str_cond_iff aln haln a.last_name).mpr hln⟩,
      (str_cond_iff gn hgn g.name).mpr hgname⟩

/-- Witness for C8 on `demoCatalog` with filters `min_price = 10`,
`genre_name = "SF"`: the characterisation holds, book 1 (priced 12, one
"SF" join row) is returned, and book 2 — despite its price of 15 — is
absent from every result, having no genre-join rows, even with no filters
supplied. -/
theorem filter_conjunction_semantics_witness :
    ((some "SF" : Option String) ≠ some "" ∧ (Option.none : Option String) ≠ some "" ∧
      (Option.none : Option String) ≠ some "") ∧
    (∀ bid, (bid ∈ ((get_books_filtered (toPy (some 10)) (toPy Option.none) (some "SF")
        Option.none Option.none ⟨0, 0⟩ demoCatalog).2.map Prod.fst) ↔
      claim_matches (some 10) Option.none (some "SF") Option.none Option.none
        demoCatalog bid)) ∧
    (1 : Int) ∈ ((get_books_filtered (toPy (some 10)) (toPy Option.none) (some "SF")
        Option.none Option.none ⟨0, 0⟩ demoCatalog).2.map Prod.fst) ∧
    (2 : Int) ∉ ((get_books_filtered (toPy (some 10)) (toPy Option.none) (some "SF")
        Option.none Option.none ⟨0, 0⟩ demoCatalog).2.map Prod.fst) ∧
    (2 : Int) ∉ ((get_books_filtered PyOpt.none PyOpt.none Option.none
        Option.none Option.none ⟨0, 0⟩ demoCatalog).2.map Prod.fst) :=
  ⟨⟨by decide, by decide, by decide⟩,
   filter_conjunction_semantics (some 10) Option.none (some "SF") Option.none
     Option.none ⟨0, 0⟩ demoCatalog (by decide) (by decide) (by decide),
   by decide, by decide, by decide⟩

/-- Counterexample to claim C7: on `liveBookingState` — book 1 exists and a
booking references it, exactly the case the claim singles out — the foreign
key `bookings.book_id REFERENCES books(id)` makes `DELETE FROM books` raise,
the one-execute implicit transaction rolls both deletes back, and
`remove_book` deletes nothing, reporting the caught-exception branch rather
than success: the book row and its join row are still present afterwards. -/
theorem remove_book_fk_blocked_counterexample :
    (∃ b ∈ liveBookingState.books, b.id = 1) ∧
    (∃ bk ∈ liveBookingState.bookings, bk.book_id = 1) ∧
    (remove_book 1 liveBookingState).1 = liveBookingState ∧
    (remove_book 1 liveBookingState).2 = RemoveMsg.error ∧
    (∃ b ∈ (remove_book 1 liveBookingState).1.books, b.id = 1) ∧
    (∃ jg ∈ (remove_book 1 liveBookingState).1.book_genres, jg.book_id = 1) := by
  decide

/-- Witness for the amended C7: `demoCatalog` has no bookings, so removing
book 2 (which exists, priced 15, no genre rows) goes through: the whole
frame-and-report conclusion holds there. -/
theorem remove_book_frame_and_report_witness :
    (demoCatalog.bookings.any (fun bk => bk.book_id == 2) = false) ∧
    ((remove_book 2 demoCatalog).1.bookings = demoCatalog.bookings ∧
     (remove_book 2 demoCatalog).1.authors = demoCatalog.authors ∧
     (remove_book 2 demoCatalog).1.genres = demoCatalog.genres ∧
     (∀ jg, jg ∈ (remove_book 2 demoCatalog).1.book_genres ↔
        jg ∈ demoCatalog.book_genres ∧ jg.book_id ≠ 2) ∧
     (∀ b, b ∈ (remove_book 2 demoCatalog).1.books ↔
        b ∈ demoCatalog.books ∧ b.id ≠ 2) ∧
     ((remove_book 2 demoCatalog).2 = RemoveMsg.notFound ↔
        ∀ b ∈ demoCatalog.books, b.id ≠ 2)) :=
  ⟨by decide, remove_book_frame_and_report 2 demoCatalog (by decide)⟩
